import Mathlib

/-!
Verification of the trend/scoring engine of the skinessentials-analytics
repository (`data_analyst.py`), shallowly embedded in Lean 4.

Numbers are modelled as exact rationals (`ℚ`).  Python's `round(x, d)` is
modelled by `roundTo d`, which rounds `x * 10^d` to the nearest integer;
Python rounds exact ties of the scaled value to even while `round` here
rounds them up, but no statement below depends on the behaviour at a tie.
Python dictionaries with optional keys are modelled as structures with
`Option` fields (`none` = key absent); a possibly-empty dictionary argument
is modelled as an `Option` of such a structure (`none` = empty/falsy dict).
-/

namespace SkinEssentials

/-- `round(x, d)` of Python: round to `d` decimal places. -/
def roundTo (d : ℕ) (x : ℚ) : ℚ :=
  ((round (x * 10 ^ d) : ℤ) : ℚ) / 10 ^ d

/-- `int(x)` of Python: truncation toward zero. -/
def truncInt (x : ℚ) : ℤ :=
  if 0 ≤ x then ⌊x⌋ else ⌈x⌉

/-- The normalized GSC (search) channel record, as read by the score
calculator, the trend engine and the recommendation generator.  Each field
is an optional dictionary key. -/
structure GscDict where
  total_clicks : Option ℚ := none
  total_impressions : Option ℚ := none
  average_position : Option ℚ := none
deriving DecidableEq

/-- The normalized GA4 (web) channel record, as read downstream. -/
structure Ga4Dict where
  total_sessions : Option ℚ := none
  bounce_rate : Option ℚ := none
  conversions : Option ℚ := none
  conversion_rate : Option ℚ := none
deriving DecidableEq

/-- The normalized Meta (social) channel record, as read downstream. -/
structure MetaDict where
  total_impressions : Option ℚ := none
  engagement_rate : Option ℚ := none
deriving DecidableEq

/-- The `channels` sub-object of a stored report.  A report whose
`channels` key is missing behaves, for every read the code performs,
exactly like the record with all three channels `none`. -/
structure Channels where
  gsc : Option GscDict := none
  ga4 : Option Ga4Dict := none
  meta : Option MetaDict := none
deriving DecidableEq

/-- A stored report (the `report` sub-object of a history entry), with the
fields the trend engine and the recommendation generator read. -/
structure Report where
  channels : Channels := {}
  overall_score : Option ℚ := none
deriving DecidableEq

/-- Result of `_calculate_trend` (the spec's `compute_metric_trend`).
The `previous == 0` branch of the source returns a dictionary without the
`change` key, so `change` is an `Option`; the other four keys are always
present.  `change_pct` is the spec's `percent_change`, `change` its
`absolute_change`. -/
structure TrendResult where
  current : ℚ
  previous : ℚ
  change : Option ℚ
  change_pct : ℚ
  direction : String
deriving DecidableEq

/-- `_calculate_trend(current, previous)` from `data_analyst.py`. -/
def calculate_trend (current previous : ℚ) : TrendResult :=
  if previous = 0 then
    { current := current, previous := previous, change := none,
      change_pct := 0, direction := "new" }
  else
    let change := current - previous
    let change_pct := roundTo 1 (change / previous * 100)
    { current := current, previous := previous, change := some change,
      change_pct := change_pct,
      direction :=
        if change > 0 then "up" else if change < 0 then "down" else "stable" }

/-- The GSC trend entry: the clicks `TrendResult` dictionary with an added
`position_change` key. -/
structure GscTrends where
  clicks : TrendResult
  position_change : ℚ
deriving DecidableEq

/-- The GA4 trend entry. -/
structure Ga4Trends where
  sessions_change : TrendResult
  bounce_rate_change : ℚ
  conversions_change : TrendResult
deriving DecidableEq

/-- The Meta trend entry. -/
structure MetaTrends where
  impressions_change : TrendResult
  engagement_change : TrendResult
deriving DecidableEq

/-- The overall trend entry, always present in a trend set. -/
structure OverallTrend where
  score_change : ℚ
  direction : String
deriving DecidableEq

/-- The trend dictionary built by `analyze_trends` when at least two
history entries exist: per-channel entries are optional keys, `overall` is
always set. -/
structure TrendSet where
  gsc : Option GscTrends := none
  ga4 : Option Ga4Trends := none
  meta : Option MetaTrends := none
  overall : OverallTrend
deriving DecidableEq

/-- The insufficient-data sentinel dictionary returned by `analyze_trends`
when fewer than two history entries exist. -/
structure Sentinel where
  status : String
  message : String
deriving DecidableEq

/-- The sentinel value the source returns. -/
def insufficientSentinel : Sentinel :=
  { status := "insufficient_data",
    message := "Need at least 2 reports for trend analysis" }

/-- The body of `analyze_trends` for `current = history[-1]["report"]` and
`previous = history[-2]["report"]`: per-channel trends are computed only
when the channel dictionary is non-empty (truthy) in both reports; the
overall trend is always computed, defaulting a missing `overall_score`
to 0. -/
def computeTrends (current previous : Report) : TrendSet :=
  let gsc :=
    match current.channels.gsc, previous.channels.gsc with
    | some cg, some pg =>
        let t := calculate_trend (cg.total_clicks.getD 0) (pg.total_clicks.getD 0)
        some { clicks := t,
               position_change :=
                 pg.average_position.getD 0 - cg.average_position.getD 0 }
    | _, _ => none
  let ga4 :=
    match current.channels.ga4, previous.channels.ga4 with
    | some ca, some pa =>
        some { sessions_change :=
                 calculate_trend (ca.total_sessions.getD 0) (pa.total_sessions.getD 0),
               bounce_rate_change :=
                 pa.bounce_rate.getD 0 - ca.bounce_rate.getD 0,
               conversions_change :=
                 calculate_trend (ca.conversions.getD 0) (pa.conversions.getD 0) }
    | _, _ => none
  let meta :=
    match current.channels.meta, previous.channels.meta with
    | some cm, some pm =>
        some { impressions_change :=
                 calculate_trend (cm.total_impressions.getD 0) (pm.total_impressions.getD 0),
               engagement_change :=
                 calculate_trend (cm.engagement_rate.getD 0) (pm.engagement_rate.getD 0) }
    | _, _ => none
  let cs := current.overall_score.getD 0
  let ps := previous.overall_score.getD 0
  { gsc := gsc, ga4 := ga4, meta := meta,
    overall :=
      { score_change := cs - ps,
        direction :=
          if cs > ps then "up" else if cs < ps then "down" else "stable" } }

/-- `analyze_trends` from `data_analyst.py`, as a function of the loaded
history (list of stored reports, oldest first).  The source checks
`len(history) < 2` and then reads `history[-1]` and `history[-2]`, which is
exactly the match on the reversed list. -/
def analyze_trends (history : List Report) : Sum Sentinel TrendSet :=
  match history.reverse with
  | current :: previous :: _ => Sum.inr (computeTrends current previous)
  | _ => Sum.inl insufficientSentinel

/-- The score dictionary produced by `calculate_overall_scores`; every key
is always set. -/
structure ScoreSet where
  search_visibility : ℚ
  ga4_performance : ℚ
  meta_performance : ℚ
  technical_health : ℚ
  content_performance : ℚ
  overall : ℚ
deriving DecidableEq

/-- `calculate_overall_scores(gsc_data, ga4_data, meta_data)` from
`data_analyst.py`.  An absent (falsy) channel dictionary yields the neutral
score 50.  The source folds `self.weights` in insertion order
(`search_visibility` 0.20, `ga4_performance` 0.30, `meta_performance`
0.20, `technical_health` 0.15, `content_performance` 0.15); that weighted
sum is written out term by term below. -/
def calculate_overall_scores (gsc_data : Option GscDict) (ga4_data : Option Ga4Dict)
    (meta_data : Option MetaDict) : ScoreSet :=
  let sv : ℚ :=
    match gsc_data with
    | some g =>
        let total_clicks := g.total_clicks.getD 0
        let total_impressions := g.total_impressions.getD 0
        let avg_position := g.average_position.getD 50
        let visibility := min 100 (total_clicks / 100 + total_impressions / 1000)
        let content_score := max 0 (100 - (avg_position - 1) * 5)
        min 100 ((visibility + content_score) / 2)
    | none => 50
  let gp : ℚ :=
    match ga4_data with
    | some a =>
        let bounce_rate := a.bounce_rate.getD 1
        let conversion_rate := a.conversion_rate.getD 0
        let ga4_score := 100 - bounce_rate * 100 + conversion_rate * 500
        max 0 (min 100 ga4_score)
    | none => 50
  let mp : ℚ :=
    match meta_data with
    | some m =>
        let engagement_rate := m.engagement_rate.getD 0
        min 100 (engagement_rate * 1000)
    | none => 50
  let th : ℚ := 75
  let cp : ℚ := 75
  { search_visibility := sv, ga4_performance := gp, meta_performance := mp,
    technical_health := th, content_performance := cp,
    overall :=
      roundTo 2 (sv * (20 / 100) + gp * (30 / 100) + mp * (20 / 100) +
        th * (15 / 100) + cp * (15 / 100)) }

/-- One GSC query row as consumed by `_analyze_gsc`; each metric is an
optional dictionary key. -/
structure QueryRow where
  clicks : Option ℚ := none
  impressions : Option ℚ := none
  position : Option ℚ := none
deriving DecidableEq

/-- The record returned by `_analyze_gsc` on non-empty input. -/
structure GscAnalysis where
  total_queries : ℕ
  total_clicks : ℚ
  total_impressions : ℚ
  average_ctr : ℚ
  average_position : ℚ
  top_3_rankings : ℕ
  positions_4_10 : ℕ
  top_queries : List QueryRow
deriving DecidableEq

/-- `_analyze_gsc(query_data)` from `data_analyst.py`; empty input returns
the empty dictionary, modelled as `none`. -/
def analyze_gsc (query_data : List QueryRow) : Option GscAnalysis :=
  match query_data with
  | [] => none
  | _ =>
    let total_clicks := (query_data.map fun r => r.clicks.getD 0).sum
    let total_impressions := (query_data.map fun r => r.impressions.getD 0).sum
    let avg_ctr := if total_impressions > 0 then total_clicks / total_impressions else 0
    let avg_position :=
      if total_impressions > 0 then
        (query_data.map fun r => r.position.getD 0 * r.impressions.getD 0).sum /
          total_impressions
      else 0
    let top_3 := (query_data.filter fun r => decide (r.position.getD 99 ≤ 3)).length
    let p410 :=
      (query_data.filter fun r =>
        decide (3 < r.position.getD 99 ∧ r.position.getD 99 ≤ 10)).length
    some { total_queries := query_data.length,
           total_clicks := total_clicks,
           total_impressions := total_impressions,
           average_ctr := roundTo 4 avg_ctr,
           average_position := roundTo 2 avg_position,
           top_3_rankings := top_3,
           positions_4_10 := p410,
           top_queries := query_data.take 10 }

/-- One value entry of a Meta insights metric item. -/
structure MetaValue where
  value : Option ℚ := none
deriving DecidableEq

/-- One item of the Meta insights `data` list: a named metric with a
period and a list of values.  (A payload whose item lacks the `name` key
raises inside the source's `try` and falls to the empty-dictionary result;
such malformed payloads are outside the embedded domain.) -/
structure MetaItem where
  name : String
  period : Option String := none
  values : List MetaValue := []
deriving DecidableEq

/-- Per-item aggregation of `analyze_meta_performance`: a lifetime-period
item contributes its first value (or 0), any other item the sum of its
values. -/
def itemValue (item : MetaItem) : ℚ :=
  if item.period = some "lifetime" then
    match item.values with
    | v :: _ => v.value.getD 0
    | [] => 0
  else (item.values.map fun v => v.value.getD 0).sum

/-- Lookup in the `metrics` dictionary built by the aggregation loop:
the last item with the given name wins (dictionary overwrite), a missing
key defaults to 0. -/
def metricValue (data : List MetaItem) (key : String) : ℚ :=
  (data.foldl (fun acc i => if i.name = key then some (itemValue i) else acc)
    (none : Option ℚ)).getD 0

/-- The raw Meta payload as consumed by `analyze_meta_performance`. -/
structure MetaPayload where
  data : List MetaItem := []
  fan_count : Option ℚ := none
deriving DecidableEq

/-- The record returned by `analyze_meta_performance` on non-empty data.
The `recent_posts`, `audience` and `ads_insights` sub-reports are produced
by separate helper analyzers, are independent of the numeric fields below,
and are not needed by any claim, so they are not modelled. -/
structure MetaAnalysis where
  total_impressions : ℚ
  total_engaged_users : ℤ
  total_fans : ℚ
  engagement_rate : ℚ
  avg_daily_impressions : ℚ
  avg_daily_engaged : ℚ
  page_views : ℚ
  post_engagements : ℚ
deriving DecidableEq

/-- `analyze_meta_performance(meta_data)` from `data_analyst.py`.  A falsy
payload or one with an empty/missing `data` list yields the empty
dictionary, modelled as `none`.  `engaged` is `int(impressions * 0.05)`;
post likes/comments/shares never enter it. -/
def analyze_meta_performance (meta_data : MetaPayload) : Option MetaAnalysis :=
  if meta_data.data = [] then none
  else
    let impressions := metricValue meta_data.data "page_impressions_unique"
    let engaged : ℤ := truncInt (impressions * (5 / 100))
    let fans := meta_data.fan_count.getD 5420
    some { total_impressions := impressions,
           total_engaged_users := engaged,
           total_fans := fans,
           engagement_rate :=
             if impressions > 0 then roundTo 4 ((engaged : ℚ) / impressions) else 0,
           avg_daily_impressions :=
             if impressions > 0 then ((⌊impressions / 7⌋ : ℤ) : ℚ) else 0,
           avg_daily_engaged := if engaged > 0 then ((engaged / 7 : ℤ) : ℚ) else 0,
           page_views := metricValue meta_data.data "page_views",
           post_engagements := metricValue meta_data.data "page_post_engagements" }

/-- One recommendation record. -/
structure Recommendation where
  priority : String
  category : String
  title : String
  description : String
  action : String
  impact : String
  timeline : String
deriving DecidableEq

/-- Rendering of a number interpolated into a description string.  The
source uses Python float format specifiers (`.1f`, `.0%`, `.1%`, or the
default `str`); these decimal renderings are abstracted to the exact
rational's string, which no claim inspects. -/
def fmtQ (q : ℚ) : String := toString q

/-- `_get_default_recommendations()` from `data_analyst.py`: the fixed
onboarding list returned when no history exists. -/
def default_recommendations : List Recommendation :=
  [ { priority := "High", category := "Setup", title := "🔧 Complete GA4 Setup",
      description := "Set up conversion events in GA4 to track business goals.",
      action := "Configure at least 3 conversion events (signups, purchases, contact forms).",
      impact := "High", timeline := "This week" },
    { priority := "High", category := "SEO", title := "🎯 Keyword Research",
      description := "Identify your top 10 target keywords with good search volume.",
      action := "Use GSC data to find keywords where you rank 5-15 - optimize these pages.",
      impact := "High", timeline := "This week" },
    { priority := "Medium", category := "Social", title := "📱 Content Calendar",
      description := "Create a consistent posting schedule.",
      action := "Post 5x per week: 2 educational, 1 behind-scenes, 1 customer story, 1 promotional.",
      impact := "Medium", timeline := "Ongoing" } ]

/-- The recommendation list built by `generate_growth_recommendations`
before the final `[:8]` truncation, for `current = history[-1]["report"]`.
Conditions and append order follow the source exactly; `trends.get(key)`
is truthy exactly when the optional trend entry is present. -/
def build_recommendations (current : Report) (trends : TrendSet) : List Recommendation :=
  let gsc := current.channels.gsc
  let ga4 := current.channels.ga4
  let meta := current.channels.meta
  let recs : List Recommendation := []
  let recs :=
    match trends.gsc with
    | some gsc_trend =>
        if gsc_trend.clicks.direction = "down" then
          recs ++
            [ { priority := "Critical", category := "SEO",
                title := "📉 Search Traffic Declining",
                description := "Clicks are down " ++ fmtQ |gsc_trend.clicks.change_pct| ++
                  "% from last period. Immediate action needed.",
                action := "Review recent algorithm changes, check for technical issues, and audit backlink profile.",
                impact := "High", timeline := "This week" } ]
        else if gsc_trend.position_change > 0 then
          recs ++
            [ { priority := "Growth", category := "SEO",
                title := "📈 Rankings Improving",
                description := "Average position improved by " ++
                  fmtQ gsc_trend.position_change ++
                  " positions. Capitalize on this momentum!",
                action := "Create more content around top-performing keywords and build backlinks.",
                impact := "High", timeline := "Next 2 weeks" } ]
        else recs
    | none => recs
  let recs :=
    match trends.ga4 with
    | some ga4_trend =>
        let recs :=
          if ga4_trend.bounce_rate_change < -(5 / 100) then
            recs ++
              [ { priority := "Critical", category := "UX",
                  title := "⚠️ Bounce Rate Increasing",
                  description := "Bounce rate increased. Users are leaving without engaging.",
                  action := "Improve page load speed, enhance content quality, add clear CTAs.",
                  impact := "High", timeline := "This week" } ]
          else recs
        if ga4_trend.conversions_change.direction = "up" then
          recs ++
            [ { priority := "Growth", category := "Conversion",
                title := "🎯 Conversions Growing",
                description := "Your conversion optimization is working! Scale what\x27s working.",
                action := "Double down on high-converting pages and traffic sources.",
                impact := "High", timeline := "Immediately" } ]
        else recs
    | none => recs
  let recs :=
    match trends.meta with
    | some meta_trend =>
        if meta_trend.impressions_change.direction = "up" then
          recs ++
            [ { priority := "Growth", category := "Social",
                title := "🚀 Social Reach Growing",
                description := "Impressions up " ++
                  fmtQ meta_trend.impressions_change.change_pct ++
                  "%! Leverage this reach.",
                action := "Increase posting frequency and test paid promotion to scale.",
                impact := "Medium", timeline := "This week" } ]
        else recs
    | none => recs
  let recs :=
    if (ga4.bind Ga4Dict.bounce_rate).getD 0 > 6 / 10 then
      recs ++
        [ { priority := "High", category := "UX", title := "🔴 High Bounce Rate",
            description := fmtQ ((ga4.bind Ga4Dict.bounce_rate).getD 0) ++
              " bounce rate is hurting conversions.",
            action := "Audit top landing pages, improve mobile experience, add engaging content.",
            impact := "High", timeline := "This week" } ]
    else recs
  let recs :=
    if (gsc.bind GscDict.average_position).getD 0 > 5 then
      recs ++
        [ { priority := "High", category := "SEO",
            title := "🎯 Position 5-10 Opportunity",
            description := "Average ranking at " ++
              fmtQ ((gsc.bind GscDict.average_position).getD 0) ++
              ". Small improvements = big traffic gains.",
            action := "Optimize content for top 10 keywords, build 2-3 quality backlinks.",
            impact := "High", timeline := "2-4 weeks" } ]
    else recs
  let recs :=
    if (meta.bind MetaDict.engagement_rate).getD 0 < 3 / 100 then
      recs ++
        [ { priority := "Medium", category := "Social", title := "📱 Low Engagement",
            description := "Only " ++ fmtQ ((meta.bind MetaDict.engagement_rate).getD 0) ++
              " engagement. Content may not be resonating.",
            action := "Test video content, ask questions, share customer stories.",
            impact := "Medium", timeline := "This week" } ]
    else recs
  recs ++
    [ { priority := "Growth", category := "Content", title := "📝 Content Gap Analysis",
        description := "Identify content opportunities your competitors rank for but you don\x27t.",
        action := "Use GSC to find keywords with impressions but no clicks - these are opportunities.",
        impact := "Medium", timeline := "This month" },
      { priority := "Growth", category := "Traffic", title := "🔗 Referral Traffic Strategy",
        description := "Build strategic partnerships for referral traffic.",
        action := "Guest post, collaborations, directory submissions.",
        impact := "Medium", timeline := "This month" } ]

/-- `generate_growth_recommendations(site_url, trends)` from
`data_analyst.py`, as a function of the loaded history and the trend
dictionary: an empty history returns the fixed default list, otherwise the
rule-generated list for `history[-1]["report"]` truncated to its first 8
entries. -/
def generate_growth_recommendations (history : List Report) (trends : TrendSet) :
    List Recommendation :=
  match history.reverse with
  | [] => default_recommendations
  | current :: _ => (build_recommendations current trends).take 8

/-- Example GSC record used by witnesses. -/
def gscExample : GscDict :=
  { total_clicks := some 100, total_impressions := some 1000,
    average_position := some 2 }

/-- Example GA4 record used by witnesses. -/
def ga4Example : Ga4Dict :=
  { bounce_rate := some (1 / 2), conversion_rate := some (1 / 100) }

/-- Example Meta record used by witnesses. -/
def metaExample : MetaDict := { engagement_rate := some (2 / 100) }

/-- Example previous-snapshot report used by witnesses: search position 10,
bounce rate 0.5. -/
def reportPrevExample : Report :=
  { channels :=
      { gsc := some { total_clicks := some 100, average_position := some 10 },
        ga4 := some { bounce_rate := some (1 / 2) } },
    overall_score := some 50 }

/-- Example current-snapshot report used by witnesses: search position 4,
bounce rate 0.3. -/
def reportCurExample : Report :=
  { channels :=
      { gsc := some { total_clicks := some 120, average_position := some 4 },
        ga4 := some { bounce_rate := some (3 / 10) } },
    overall_score := some 60 }

/-- Example current-snapshot report with only the search channel present. -/
def reportCurGscOnly : Report :=
  { channels := { gsc := some { total_clicks := some 80 } },
    overall_score := some 40 }

/-- Query row whose exact weighted CTR 1/3 is not representable at 4
decimal places. -/
def rowThird : QueryRow :=
  { clicks := some 1, impressions := some 3, position := some 0 }

/-- Query row with weighted CTR 1/4, exactly representable. -/
def rowQuarter : QueryRow :=
  { clicks := some 1, impressions := some 4, position := some 2 }

/-- Example Meta payload used by witnesses: one non-lifetime metric item
with 700 unique impressions. -/
def metaPayloadExample : MetaPayload :=
  { data := [{ name := "page_impressions_unique",
               values := [{ value := some 700 }] }],
    fan_count := some 5000 }

/-- The analysis record produced for `metaPayloadExample`. -/
def metaAnalysisExample : MetaAnalysis :=
  { total_impressions := 700, total_engaged_users := 35, total_fans := 5000,
    engagement_rate := roundTo 4 (35 / 700),
    avg_daily_impressions := 100, avg_daily_engaged := 5,
    page_views := 0, post_engagements := 0 }

/-! ## Helper lemmas -/

/-- Rounding to two decimal places moves a value by at most 0.01. -/
theorem abs_roundTo_two_sub_le (x : ℚ) : |roundTo 2 x - x| ≤ 1 / 100 := by
  have h := abs_sub_round (x * 10 ^ 2)
  rw [abs_sub_comm] at h
  have e : ((round (x * 10 ^ 2) : ℤ) : ℚ) / 10 ^ 2 - x =
      (((round (x * 10 ^ 2) : ℤ) : ℚ) - x * 10 ^ 2) / 10 ^ 2 := by ring
  rw [roundTo, e, abs_div]
  have h2 : |((10 : ℚ)) ^ 2| = 100 := by norm_num
  rw [h2]
  linarith

/-- `roundTo` is monotone. -/
theorem roundTo_le_roundTo (d : ℕ) {x y : ℚ} (h : x ≤ y) :
    roundTo d x ≤ roundTo d y := by
  unfold roundTo
  have hp : (0 : ℚ) < 10 ^ d := by positivity
  have hr : round (x * 10 ^ d) ≤ round (y * 10 ^ d) := by
    rw [round_eq, round_eq]
    exact Int.floor_le_floor (by nlinarith)
  have hc : ((round (x * 10 ^ d) : ℤ) : ℚ) ≤ ((round (y * 10 ^ d) : ℤ) : ℚ) := by
    exact_mod_cast hr
  exact (div_le_div_iff_of_pos_right hp).mpr hc

/-- If `x * 10 ^ d` is an integer, rounding to `d` decimals leaves `x`
unchanged. -/
theorem roundTo_eq_self (d : ℕ) (x : ℚ) (n : ℤ) (h : x * 10 ^ d = (n : ℚ)) :
    roundTo d x = x := by
  have h10 : ((10 : ℚ)) ^ d ≠ 0 := by positivity
  rw [roundTo, h, round_intCast, ← h]
  field_simp

/-! ## Claim theorems -/

/-- C2: `_calculate_trend` returns direction `"new"` with `change_pct`
(the spec's `percent_change`) equal to 0 whenever `previous = 0`,
regardless of `current`; otherwise `change_pct` is
`round((current - previous) / previous * 100, 1)` and the direction is
`"up"`, `"down"` or `"stable"` by the sign of `current - previous`. -/
theorem trend_percent_and_direction (current previous : ℚ) :
    (previous = 0 →
      (calculate_trend current previous).change_pct = 0 ∧
      (calculate_trend current previous).direction = "new") ∧
    (previous ≠ 0 →
      (calculate_trend current previous).change_pct =
        roundTo 1 ((current - previous) / previous * 100) ∧
      (calculate_trend current previous).direction =
        (if current - previous > 0 then "up"
         else if current - previous < 0 then "down" else "stable")) := by
  constructor
  · intro h
    simp [calculate_trend, h]
  · intro h
    simp [calculate_trend, h]

/-- Witness for C2: the spec's example `current = 150`, `previous = 100`
gives `change_pct = 50` and direction `"up"`. -/
theorem trend_percent_and_direction_witness :
    (calculate_trend 150 100).change_pct = 50 ∧
    (calculate_trend 150 100).direction = "up" := by
  have h := (trend_percent_and_direction 150 100).2 (by norm_num)
  refine ⟨?_, ?_⟩
  · rw [h.1]
    rw [show ((150 : ℚ) - 100) / 100 * 100 = 50 by norm_num]
    exact roundTo_eq_self 1 50 500 (by norm_num)
  · rw [h.2]
    norm_num

/-- C7 counterexample: at `current = 5`, `previous = 0` the returned
record has no `change` key (the spec's `absolute_change`), so the claim
that all five fields are present in every case, including `previous = 0`,
is false on the code. -/
theorem trend_new_omits_change_counterexample :
    (calculate_trend 5 0).change = none ∧
    (calculate_trend 5 0).direction = "new" := by
  decide

/-- C7 amended: for `previous ≠ 0` the result carries all five fields
(`current`, `previous` and `change_pct` are always-present structure
fields, `change = some (current - previous)`, direction in
up/down/stable); for `previous = 0` the `change` key is omitted and the
result carries only the other four fields, with `change_pct = 0` and
direction `"new"`. -/
theorem trend_result_fields (current previous : ℚ) :
    (previous ≠ 0 →
      (calculate_trend current previous).change = some (current - previous) ∧
      ((calculate_trend current previous).direction = "up" ∨
       (calculate_trend current previous).direction = "down" ∨
       (calculate_trend current previous).direction = "stable")) ∧
    (previous = 0 →
      (calculate_trend current previous).change = none ∧
      (calculate_trend current previous).change_pct = 0 ∧
      (calculate_trend current previous).direction = "new") := by
  constructor
  · intro h
    refine ⟨by simp [calculate_trend, h], ?_⟩
    simp only [calculate_trend, if_neg h]
    split_ifs <;> simp
  · intro h
    simp [calculate_trend, h]

/-- Witness for C7's amended theorem, at `current = 7`, `previous = 4`. -/
theorem trend_result_fields_witness :
    (calculate_trend 7 4).change = some 3 ∧
    ((calculate_trend 7 4).direction = "up" ∨
     (calculate_trend 7 4).direction = "down" ∨
     (calculate_trend 7 4).direction = "stable") := by
  have h := (trend_result_fields 7 4).1 (by norm_num)
  refine ⟨?_, h.2⟩
  rw [h.1]
  norm_num

/-- C4: with all three channel records absent, the score calculator
returns exactly 50/50/50/75/75 with overall 57.5. -/
theorem scores_all_absent :
    calculate_overall_scores none none none =
      { search_visibility := 50, ga4_performance := 50, meta_performance := 50,
        technical_health := 75, content_performance := 75,
        overall := 115 / 2 } := by
  show ScoreSet.mk 50 50 50 75 75
      (roundTo 2 ((50 : ℚ) * (20 / 100) + 50 * (30 / 100) + 50 * (20 / 100) +
        75 * (15 / 100) + 75 * (15 / 100))) = _
  congr 1
  rw [show (50 : ℚ) * (20 / 100) + 50 * (30 / 100) + 50 * (20 / 100) +
      75 * (15 / 100) + 75 * (15 / 100) = 115 / 2 by norm_num]
  exact roundTo_eq_self 2 (115 / 2) 5750 (by norm_num)

/-- C1: for channel records whose count/rate fields are nonnegative (the
data model's metric values are counts and rates), each category score lies
in [0, 100], and `overall` equals the weighted sum of the five category
scores with weights 0.20 / 0.30 / 0.20 / 0.15 / 0.15 to within the
rounding tolerance 0.01. -/
theorem scores_bounded_and_weighted (gsc_data : Option GscDict)
    (ga4_data : Option Ga4Dict) (meta_data : Option MetaDict)
    (hg : ∀ g, gsc_data = some g →
      0 ≤ g.total_clicks.getD 0 ∧ 0 ≤ g.total_impressions.getD 0)
    (hm : ∀ m, meta_data = some m → 0 ≤ m.engagement_rate.getD 0) :
    (0 ≤ (calculate_overall_scores gsc_data ga4_data meta_data).search_visibility ∧
      (calculate_overall_scores gsc_data ga4_data meta_data).search_visibility ≤ 100) ∧
    (0 ≤ (calculate_overall_scores gsc_data ga4_data meta_data).ga4_performance ∧
      (calculate_overall_scores gsc_data ga4_data meta_data).ga4_performance ≤ 100) ∧
    (0 ≤ (calculate_overall_scores gsc_data ga4_data meta_data).meta_performance ∧
      (calculate_overall_scores gsc_data ga4_data meta_data).meta_performance ≤ 100) ∧
    (0 ≤ (calculate_overall_scores gsc_data ga4_data meta_data).technical_health ∧
      (calculate_overall_scores gsc_data ga4_data meta_data).technical_health ≤ 100) ∧
    (0 ≤ (calculate_overall_scores gsc_data ga4_data meta_data).content_performance ∧
      (calculate_overall_scores gsc_data ga4_data meta_data).content_performance ≤ 100) ∧
    |(calculate_overall_scores gsc_data ga4_data meta_data).overall -
      ((calculate_overall_scores gsc_data ga4_data meta_data).search_visibility * (20 / 100) +
       (calculate_overall_scores gsc_data ga4_data meta_data).ga4_performance * (30 / 100) +
       (calculate_overall_scores gsc_data ga4_data meta_data).meta_performance * (20 / 100) +
       (calculate_overall_scores gsc_data ga4_data meta_data).technical_health * (15 / 100) +
       (calculate_overall_scores gsc_data ga4_data meta_data).content_performance * (15 / 100))| ≤
      1 / 100 := by
  refine ⟨?_, ?_, ?_, ?_, ?_, ?_⟩
  · rcases gsc_data with _ | g
    · norm_num [calculate_overall_scores]
    · obtain ⟨hc, hi⟩ := hg g rfl
      simp only [calculate_overall_scores]
      constructor
      · refine le_min (by norm_num) ?_
        have h1 : (0 : ℚ) ≤
            min 100 (g.total_clicks.getD 0 / 100 + g.total_impressions.getD 0 / 1000) :=
          le_min (by norm_num)
            (add_nonneg (div_nonneg hc (by norm_num)) (div_nonneg hi (by norm_num)))
        have h2 : (0 : ℚ) ≤ max 0 (100 - (g.average_position.getD 50 - 1) * 5) :=
          le_max_left 0 _
        linarith
      · exact min_le_left _ _
  · rcases ga4_data with _ | a
    · norm_num [calculate_overall_scores]
    · simp only [calculate_overall_scores]
      exact ⟨le_max_left 0 _, max_le (by norm_num) (min_le_left _ _)⟩
  · rcases meta_data with _ | m
    · norm_num [calculate_overall_scores]
    · have her := hm m rfl
      simp only [calculate_overall_scores]
      exact ⟨le_min (by norm_num) (mul_nonneg her (by norm_num)), min_le_left _ _⟩
  · norm_num [calculate_overall_scores]
  · norm_num [calculate_overall_scores]
  · exact abs_roundTo_two_sub_le _

/-- Witness for C1 at a concrete fully-present input. -/
theorem scores_bounded_and_weighted_witness :
    (0 ≤ (calculate_overall_scores (some gscExample) (some ga4Example)
        (some metaExample)).search_visibility ∧
      (calculate_overall_scores (some gscExample) (some ga4Example)
        (some metaExample)).search_visibility ≤ 100) ∧
    (0 ≤ (calculate_overall_scores (some gscExample) (some ga4Example)
        (some metaExample)).ga4_performance ∧
      (calculate_overall_scores (some gscExample) (some ga4Example)
        (some metaExample)).ga4_performance ≤ 100) ∧
    (0 ≤ (calculate_overall_scores (some gscExample) (some ga4Example)
        (some metaExample)).meta_performance ∧
      (calculate_overall_scores (some gscExample) (some ga4Example)
        (some metaExample)).meta_performance ≤ 100) ∧
    (0 ≤ (calculate_overall_scores (some gscExample) (some ga4Example)
        (some metaExample)).technical_health ∧
      (calculate_overall_scores (some gscExample) (some ga4Example)
        (some metaExample)).technical_health ≤ 100) ∧
    (0 ≤ (calculate_overall_scores (some gscExample) (some ga4Example)
        (some metaExample)).content_performance ∧
      (calculate_overall_scores (some gscExample) (some ga4Example)
        (some metaExample)).content_performance ≤ 100) ∧
    |(calculate_overall_scores (some gscExample) (some ga4Example)
        (some metaExample)).overall -
      ((calculate_overall_scores (some gscExample) (some ga4Example)
        (some metaExample)).search_visibility * (20 / 100) +
       (calculate_overall_scores (some gscExample) (some ga4Example)
        (some metaExample)).ga4_performance * (30 / 100) +
       (calculate_overall_scores (some gscExample) (some ga4Example)
        (some metaExample)).meta_performance * (20 / 100) +
       (calculate_overall_scores (some gscExample) (some ga4Example)
        (some metaExample)).technical_health * (15 / 100) +
       (calculate_overall_scores (some gscExample) (some ga4Example)
        (some metaExample)).content_performance * (15 / 100))| ≤ 1 / 100 := by
  exact scores_bounded_and_weighted (some gscExample) (some ga4Example)
    (some metaExample)
    (by intro g hgg; injection hgg with hgg; subst hgg; simp [gscExample])
    (by intro m hmm; injection hmm with hmm; subst hmm; norm_num [metaExample])

/-- C3: a history with fewer than 2 snapshots makes `analyze_trends`
return the insufficient-data sentinel (status `"insufficient_data"` with a
human-readable message), never a populated trend set; with at least 2
snapshots it never returns the sentinel. -/
theorem trends_sentinel_iff_short (history : List Report) :
    (history.length < 2 →
      analyze_trends history = Sum.inl insufficientSentinel) ∧
    (2 ≤ history.length → ∃ ts, analyze_trends history = Sum.inr ts) := by
  constructor
  · intro h
    rcases hrev : history.reverse with _ | ⟨c, _ | ⟨p, rest⟩⟩
    · simp [analyze_trends, hrev]
    · simp [analyze_trends, hrev]
    · exfalso
      have hlen := congrArg List.length hrev
      simp only [List.length_reverse, List.length_nil, List.length_cons] at hlen
      omega
  · intro h
    rcases hrev : history.reverse with _ | ⟨c, _ | ⟨p, rest⟩⟩
    · exfalso
      have hlen := congrArg List.length hrev
      simp only [List.length_reverse, List.length_nil, List.length_cons] at hlen
      omega
    · exfalso
      have hlen := congrArg List.length hrev
      simp only [List.length_reverse, List.length_nil, List.length_cons] at hlen
      omega
    · exact ⟨computeTrends c p, by simp [analyze_trends, hrev]⟩

/-- Witness for C3: the empty history gives the sentinel; a two-entry
history gives a trend set. -/
theorem trends_sentinel_iff_short_witness :
    analyze_trends [] = Sum.inl insufficientSentinel ∧
    ∃ ts, analyze_trends [{}, {}] = Sum.inr ts := by
  exact ⟨(trends_sentinel_iff_short []).1 (by norm_num),
         (trends_sentinel_iff_short [{}, {}]).2 (by norm_num)⟩

/-- C6: the recommendation generator never returns more than 8
recommendations, on the rule-based path (truncation to the first 8 in
generation order) as well as on the no-history default path. -/
theorem recommendations_capped (history : List Report) (trends : TrendSet) :
    (generate_growth_recommendations history trends).length ≤ 8 := by
  unfold generate_growth_recommendations
  split
  · norm_num [default_recommendations]
  · exact List.length_take_le 8 _

/-- C5: for two snapshots whose search and web channel records are both
non-empty, the trend engine reports
`position_change = previous.average_position - current.average_position`
and `bounce_rate_change = previous.bounce_rate - current.bounce_rate`
(positive = improvement in both cases). -/
theorem trend_sign_convention (history rest : List Report) (cur prev : Report)
    (cg pg : GscDict) (ca pa : Ga4Dict)
    (hrev : history.reverse = cur :: prev :: rest)
    (hcg : cur.channels.gsc = some cg) (hpg : prev.channels.gsc = some pg)
    (hca : cur.channels.ga4 = some ca) (hpa : prev.channels.ga4 = some pa) :
    ∃ ts : TrendSet, analyze_trends history = Sum.inr ts ∧
      ts.gsc.map GscTrends.position_change =
        some (pg.average_position.getD 0 - cg.average_position.getD 0) ∧
      ts.ga4.map Ga4Trends.bounce_rate_change =
        some (pa.bounce_rate.getD 0 - ca.bounce_rate.getD 0) := by
  refine ⟨computeTrends cur prev, by simp [analyze_trends, hrev], ?_, ?_⟩
  · simp [computeTrends, hcg, hpg]
  · simp [computeTrends, hca, hpa]

/-- Witness for C5: previous position 10, current position 4 gives
`position_change = +6`; previous bounce rate 0.5, current 0.3 gives
`bounce_rate_change = +0.2`. -/
theorem trend_sign_convention_witness :
    ∃ ts : TrendSet,
      analyze_trends [reportPrevExample, reportCurExample] = Sum.inr ts ∧
      ts.gsc.map GscTrends.position_change = some 6 ∧
      ts.ga4.map Ga4Trends.bounce_rate_change = some (1 / 5) := by
  obtain ⟨ts, h1, h2, h3⟩ :=
    trend_sign_convention [reportPrevExample, reportCurExample] []
      reportCurExample reportPrevExample
      { total_clicks := some 120, average_position := some 4 }
      { total_clicks := some 100, average_position := some 10 }
      { bounce_rate := some (3 / 10) } { bounce_rate := some (1 / 2) }
      (by rfl) (by rfl) (by rfl) (by rfl) (by rfl)
  refine ⟨ts, h1, ?_, ?_⟩
  · rw [h2]
    norm_num
  · rw [h3]
    norm_num

/-- C9: on any history of length at least 2, the trend set always carries
the overall entry (score change and direction from the two snapshots'
overall scores, missing scores defaulting to 0), while each per-channel
entry is present exactly when that channel's record is non-empty in both
the current and the previous snapshot, and omitted otherwise. -/
theorem trend_entries_presence (history rest : List Report) (cur prev : Report)
    (hrev : history.reverse = cur :: prev :: rest) :
    ∃ ts : TrendSet, analyze_trends history = Sum.inr ts ∧
      ts.overall.score_change =
        cur.overall_score.getD 0 - prev.overall_score.getD 0 ∧
      ts.overall.direction =
        (if cur.overall_score.getD 0 > prev.overall_score.getD 0 then "up"
         else if cur.overall_score.getD 0 < prev.overall_score.getD 0 then "down"
         else "stable") ∧
      ts.gsc.isSome = (cur.channels.gsc.isSome && prev.channels.gsc.isSome) ∧
      ts.ga4.isSome = (cur.channels.ga4.isSome && prev.channels.ga4.isSome) ∧
      ts.meta.isSome = (cur.channels.meta.isSome && prev.channels.meta.isSome) := by
  refine ⟨computeTrends cur prev, by simp [analyze_trends, hrev], ?_, ?_, ?_, ?_, ?_⟩
  · simp [computeTrends]
  · simp [computeTrends]
  · rcases h1 : cur.channels.gsc with _ | x <;>
      rcases h2 : prev.channels.gsc with _ | y <;>
        simp [computeTrends, h1, h2]
  · rcases h1 : cur.channels.ga4 with _ | x <;>
      rcases h2 : prev.channels.ga4 with _ | y <;>
        simp [computeTrends, h1, h2]
  · rcases h1 : cur.channels.meta with _ | x <;>
      rcases h2 : prev.channels.meta with _ | y <;>
        simp [computeTrends, h1, h2]

/-- Witness for C9: current snapshot has only the search channel, previous
has search and web; the trend set keeps the search entry, omits the web
and social entries, and carries the overall entry with score change
40 - 50 = -10. -/
theorem trend_entries_presence_witness :
    ∃ ts : TrendSet,
      analyze_trends [reportPrevExample, reportCurGscOnly] = Sum.inr ts ∧
      ts.overall.score_change = -10 ∧
      ts.overall.direction = "down" ∧
      ts.gsc.isSome = true ∧ ts.ga4.isSome = false ∧ ts.meta.isSome = false := by
  obtain ⟨ts, h1, h2, h3, h4, h5, h6⟩ :=
    trend_entries_presence [reportPrevExample, reportCurGscOnly] []
      reportCurGscOnly reportPrevExample (by rfl)
  refine ⟨ts, h1, ?_, ?_, ?_, ?_, ?_⟩
  · rw [h2]
    norm_num [reportPrevExample, reportCurGscOnly]
  · rw [h3]
    norm_num [reportPrevExample, reportCurGscOnly]
  · rw [h4]
    simp [reportPrevExample, reportCurGscOnly]
  · rw [h5]
    simp [reportPrevExample, reportCurGscOnly]
  · rw [h6]
    simp [reportPrevExample, reportCurGscOnly]

/-- Evaluate `roundTo` from floor bounds on the scaled value. -/
theorem roundTo_eq_of_bounds (d : ℕ) (x : ℚ) (n : ℤ)
    (h1 : (n : ℚ) ≤ x * 10 ^ d + 1 / 2) (h2 : x * 10 ^ d + 1 / 2 < (n : ℚ) + 1) :
    roundTo d x = (n : ℚ) / 10 ^ d := by
  have hf : ⌊x * 10 ^ d + 1 / 2⌋ = n := Int.floor_eq_iff.mpr ⟨h1, by exact_mod_cast h2⟩
  rw [roundTo, round_eq, hf]

/-- C8 counterexample: for the single query row with 1 click and 3
impressions, the stored `average_ctr` is `round(1/3, 4) = 0.3333`, not the
exact impression-weighted ratio 1/3, so the claimed equality fails on the
code. -/
theorem weighted_ctr_counterexample :
    (analyze_gsc [rowThird]).map GscAnalysis.average_ctr ≠
      some ((1 : ℚ) / 3) := by
  have hval : roundTo 4 ((1 : ℚ) / 3) = (3333 : ℚ) / 10000 := by
    have h := roundTo_eq_of_bounds 4 (1 / 3) 3333 (by norm_num) (by norm_num)
    rw [h]
    norm_num
  have hgsc : analyze_gsc [rowThird] =
      some { total_queries := 1, total_clicks := 1, total_impressions := 3,
             average_ctr := roundTo 4 (1 / 3),
             average_position := roundTo 2 0,
             top_3_rankings := 1, positions_4_10 := 0,
             top_queries := [rowThird] } := by
    simp only [analyze_gsc]
    norm_num [rowThird]
  rw [hgsc]
  simp only [Option.map_some, ne_eq, Option.some.injEq]
  rw [hval]
  norm_num

/-- C8 amended: for every non-empty list of query rows, the record's
`average_ctr` equals the impression-weighted ratio
(sum of clicks)/(sum of impressions) rounded to 4 decimal places — not the
simple mean of per-row CTRs — and `average_position` equals the
impression-weighted mean of positions rounded to 2 decimal places; both
are 0 when the total impressions are 0. -/
theorem weighted_ctr_and_position (rows : List QueryRow) (a : GscAnalysis)
    (ha : analyze_gsc rows = some a) :
    ((rows.map fun r => r.impressions.getD 0).sum > 0 →
      a.average_ctr = roundTo 4 ((rows.map fun r => r.clicks.getD 0).sum /
        (rows.map fun r => r.impressions.getD 0).sum) ∧
      a.average_position = roundTo 2
        ((rows.map fun r => r.position.getD 0 * r.impressions.getD 0).sum /
          (rows.map fun r => r.impressions.getD 0).sum)) ∧
    ((rows.map fun r => r.impressions.getD 0).sum = 0 →
      a.average_ctr = 0 ∧ a.average_position = 0) := by
  rcases rows with _ | ⟨r, rs⟩
  · simp [analyze_gsc] at ha
  · simp only [analyze_gsc] at ha
    injection ha with ha
    subst ha
    constructor
    · intro hpos
      constructor
      · show roundTo 4 (if _ > (0 : ℚ) then _ else 0) = _
        rw [if_pos hpos]
      · show roundTo 2 (if _ > (0 : ℚ) then _ else 0) = _
        rw [if_pos hpos]
    · intro hz
      have hneg : ¬ ((r :: rs).map fun q => q.impressions.getD 0).sum > 0 := by
        rw [hz]
        norm_num
      constructor
      · show roundTo 4 (if _ > (0 : ℚ) then _ else 0) = 0
        rw [if_neg hneg]
        exact roundTo_eq_self 4 0 0 (by norm_num)
      · show roundTo 2 (if _ > (0 : ℚ) then _ else 0) = 0
        rw [if_neg hneg]
        exact roundTo_eq_self 2 0 0 (by norm_num)

/-- Witness for C8's amended theorem: one row with 1 click, 4 impressions,
position 2 gives `average_ctr = 0.25` and `average_position = 2`. -/
theorem weighted_ctr_and_position_witness :
    ∃ a : GscAnalysis, analyze_gsc [rowQuarter] = some a ∧
      a.average_ctr = 1 / 4 ∧ a.average_position = 2 := by
  have ha : analyze_gsc [rowQuarter] =
      some { total_queries := 1, total_clicks := 1, total_impressions := 4,
             average_ctr := roundTo 4 (1 / 4),
             average_position := roundTo 2 2,
             top_3_rankings := 1, positions_4_10 := 0,
             top_queries := [rowQuarter] } := by
    simp only [analyze_gsc]
    norm_num [rowQuarter]
  have h := (weighted_ctr_and_position [rowQuarter] _ ha).1
    (by norm_num [rowQuarter])
  refine ⟨_, ha, ?_, ?_⟩
  · rw [h.1]
    rw [show ((([rowQuarter] : List QueryRow).map fun r => r.clicks.getD 0).sum /
        (([rowQuarter] : List QueryRow).map fun r => r.impressions.getD 0).sum) =
        (1 / 4 : ℚ) by norm_num [rowQuarter]]
    exact roundTo_eq_self 4 (1 / 4) 2500 (by norm_num)
  · rw [h.2]
    rw [show ((([rowQuarter] : List QueryRow).map
          fun r => r.position.getD 0 * r.impressions.getD 0).sum /
        (([rowQuarter] : List QueryRow).map fun r => r.impressions.getD 0).sum) =
        (2 : ℚ) by norm_num [rowQuarter]]
    exact roundTo_eq_self 2 2 200 (by norm_num)

/-- C10: whenever Meta insights with positive total unique impressions
are analyzed, the engaged-users figure is unconditionally the integer
truncation of impressions × 0.05 (actual post likes/comments/shares never
enter it), the resulting `engagement_rate` is at most 0.05, and hence the
`meta_performance` score `min(100, engagement_rate × 1000)` computed from
it never exceeds 50. -/
theorem meta_engagement_capped (meta_data : MetaPayload) (a : MetaAnalysis)
    (g : Option GscDict) (w : Option Ga4Dict) (t : Option ℚ)
    (ha : analyze_meta_performance meta_data = some a)
    (hpos : 0 < metricValue meta_data.data "page_impressions_unique") :
    a.total_engaged_users =
      truncInt (metricValue meta_data.data "page_impressions_unique" * (5 / 100)) ∧
    a.engagement_rate ≤ 5 / 100 ∧
    (calculate_overall_scores g w
      (some { total_impressions := t,
              engagement_rate := some a.engagement_rate })).meta_performance ≤ 50 := by
  have hne : meta_data.data ≠ [] := fun h => by
    simp [analyze_meta_performance, h] at ha
  simp only [analyze_meta_performance, if_neg hne] at ha
  injection ha with ha
  have her : a.engagement_rate ≤ 5 / 100 := by
    rw [← ha]
    show (if 0 < metricValue meta_data.data "page_impressions_unique" then
        roundTo 4
          ((truncInt (metricValue meta_data.data "page_impressions_unique" * (5 / 100)) : ℚ) /
            metricValue meta_data.data "page_impressions_unique")
      else 0) ≤ 5 / 100
    rw [if_pos hpos]
    have h0 : (0 : ℚ) ≤
        metricValue meta_data.data "page_impressions_unique" * (5 / 100) :=
      mul_nonneg hpos.le (by norm_num)
    have htr : (truncInt (metricValue meta_data.data "page_impressions_unique" *
        (5 / 100)) : ℚ) ≤
        metricValue meta_data.data "page_impressions_unique" * (5 / 100) := by
      unfold truncInt
      rw [if_pos h0]
      exact Int.floor_le _
    have hdiv : (truncInt (metricValue meta_data.data "page_impressions_unique" *
        (5 / 100)) : ℚ) /
        metricValue meta_data.data "page_impressions_unique" ≤ 5 / 100 := by
      rw [div_le_iff₀ hpos]
      linarith [htr]
    calc roundTo 4 ((truncInt (metricValue meta_data.data "page_impressions_unique" *
            (5 / 100)) : ℚ) /
          metricValue meta_data.data "page_impressions_unique")
        ≤ roundTo 4 (5 / 100) := roundTo_le_roundTo 4 hdiv
      _ = 5 / 100 := roundTo_eq_self 4 (5 / 100) 500 (by norm_num)
  refine ⟨?_, her, ?_⟩
  · rw [← ha]
  · show min 100 ((some a.engagement_rate).getD 0 * 1000) ≤ 50
    calc min 100 ((some a.engagement_rate).getD 0 * 1000)
        ≤ (some a.engagement_rate).getD 0 * 1000 := min_le_right _ _
      _ = a.engagement_rate * 1000 := by rw [Option.getD_some]
      _ ≤ 50 := by linarith [her]

/-- Witness for C10: a payload with 700 unique impressions yields
35 engaged users, engagement rate 0.05 and a meta score of at most 50. -/
theorem meta_engagement_capped_witness :
    metaAnalysisExample.total_engaged_users =
      truncInt (metricValue metaPayloadExample.data "page_impressions_unique" *
        (5 / 100)) ∧
    metaAnalysisExample.engagement_rate ≤ 5 / 100 ∧
    (calculate_overall_scores none none
      (some { total_impressions := none,
              engagement_rate :=
                some metaAnalysisExample.engagement_rate })).meta_performance ≤ 50 := by
  exact meta_engagement_capped metaPayloadExample metaAnalysisExample none none none
    (by simp only [analyze_meta_performance, metaPayloadExample, metaAnalysisExample]
        norm_num [metricValue, itemValue, truncInt]
        constructor <;> (rw [if_neg (by decide)]; simp))
    (by norm_num [metricValue, itemValue, metaPayloadExample])

end SkinEssentials
